import Mathlib

/-!
Verification development for the real-time chat backend
(`core/users/consumers.py`, `core/users/signals.py`, `core/users/models.py`,
`core/users/views.py`, `core/core/settings.py`).

The Python sources are shallowly embedded below:
pure fragments become Lean functions, the database and the channel layer
become explicit values threaded through the functions, exceptions become an
`Option String` field naming the escaped exception, and JSON frames become an
inductive `Json` value (`none` standing for text that `json.loads` rejects).
-/

namespace Chat

/-- `users.models.User`, restricted to the fields the chat path reads:
the primary key and `email` (used as the display name in broadcasts). -/
structure User where
  id : Int
  email : String
deriving DecidableEq, Repr

/-- `users.models.Message`: `sender` is a non-nullable foreign key to `User`
(`models.ForeignKey(User, on_delete=models.CASCADE)` with no `null=True`),
`content` a text field, `timestamp` set at creation (`auto_now_add`).
The non-nullability is type-level here: `sender : User`, not `Option User`. -/
structure Message where
  sender : User
  content : String
  timestamp : Nat
deriving DecidableEq, Repr

/-- The payload handed to `channel_layer.group_send` (a broadcast event):
`{'type': 'chat_message', 'message': ..., 'sender': ...}`. -/
structure BroadcastEvent where
  message : String
  sender : String
deriving DecidableEq, Repr

/-- Result of `json.loads` on an inbound text frame. -/
inductive Json where
  | null
  | bool (b : Bool)
  | num (n : Int)
  | str (s : String)
  | arr (elems : List Json)
  | obj (fields : List (String × Json))

/-- Python `dict.get(key)`: the value when present, `none` otherwise. -/
def jget (fields : List (String × Json)) (key : String) : Option Json :=
  (fields.find? (fun kv => kv.1 == key)).map (fun kv => kv.2)

/-- The characters `str.strip()` removes (Python ASCII whitespace:
space, tab, newline, carriage return, vertical tab, form feed). -/
def isPySpace (c : Char) : Bool :=
  (c == ' ') || (c == '\t') || (c == '\n') || (c == '\r') ||
    (c == '\x0b') || (c == '\x0c')

/-- Python `str.strip()`: remove leading and trailing whitespace. -/
def pyStrip (s : String) : String :=
  ⟨((s.data.dropWhile isPySpace).reverse.dropWhile isPySpace).reverse⟩

/-- Python `s or 'Anonymous'` where `s` is `Optional[str]`: both `None` and
the empty string are falsy and fall back to the default. -/
def pyOr (s : Option String) (default : String) : String :=
  match s with
  | some v => if v = "" then default else v
  | none => default

/-- `core/core/settings.py` sets `CHANNEL_LAYERS` to the in-memory backend,
so `channels.layers.get_channel_layer()` returns a layer, not `None`. -/
def channel_layer_configured : Bool := true

/-- `users.signals.broadcast_message`, the `post_save` receiver for `Message`
(registered by `UsersConfig.ready`): on a save with `created=True` and a
configured channel layer it issues one `group_send` to `'chat_room'` carrying
`instance.content` and `instance.sender.email`; otherwise it returns without
broadcasting. The returned list is the events this receiver issues. -/
def broadcast_message (created : Bool) (inst : Message) : List BroadcastEvent :=
  if !created then []
  else if !channel_layer_configured then []
  else [⟨inst.content, inst.sender.email⟩]

/-- `Message.objects.create(...)`: appends the row and synchronously fires the
`post_save` signal, i.e. `broadcast_message` with `created=True`.
Returns the new store contents and the events the signal issued. -/
def message_create (store : List Message) (m : Message) :
    List Message × List BroadcastEvent :=
  (store ++ [m], broadcast_message true m)

/-- `User.objects.get(pk=sender_id)` against the user table `dir`:
the user whose primary key matches, `none` when the lookup raises
`User.DoesNotExist` (no such row, or `sender_id` is not a usable key). -/
def getUserByPk (dir : List User) (pk : Option Int) : Option User :=
  match pk with
  | some n => dir.find? (fun u => u.id == n)
  | none => none

/-- The `sender_id` JSON value as a primary-key candidate: only a JSON
number matches an integer primary key. -/
def jsonToPk : Json → Option Int
  | .num n => some n
  | _ => none

/-- Outcome of `ChatConsumer.save_message` (`consumers.py` lines 84-98). -/
structure SaveResult where
  store : List Message
  events : List BroadcastEvent
  senderEmail : Option String
deriving DecidableEq, Repr

/-- `ChatConsumer.save_message(sender_id, content)`: look the sender up; on
success create the `Message` row (which fires the `post_save` broadcast) and
return the sender's email; on `User.DoesNotExist` return `None` without
creating anything. Only `User.DoesNotExist` is caught, so a failing store
append (`storeOk = false`) escapes as a database exception (`.error`). -/
def save_message (dir : List User) (store : List Message) (storeOk : Bool)
    (pk : Option Int) (content : String) (now : Nat) :
    Except String SaveResult :=
  match getUserByPk dir pk with
  | some sender =>
      if storeOk then
        let created := message_create store ⟨sender, content, now⟩
        .ok ⟨created.1, created.2, some sender.email⟩
      else
        .error "DatabaseError"
  | none => .ok ⟨store, [], none⟩

/-- What one call of `ChatConsumer.receive` leaves behind: the message store,
the broadcast events issued (in order) and the exception that escaped the
handler, if any (`none` means the handler returned normally and the
connection stays joined). -/
structure RecvOutcome where
  store : List Message
  events : List BroadcastEvent
  exn : Option String
deriving DecidableEq, Repr

/-- `ChatConsumer.receive(text_data)` (`consumers.py` lines 40-69).
`frame` is the result of `json.loads(text_data)` (`none` when it raises
`JSONDecodeError`, which the `except` clause catches). `data.get` on a
non-dict value and `.strip()` on a non-str value raise `AttributeError`,
which the `except (json.JSONDecodeError, KeyError)` clause does not catch.
Empty content after stripping returns early. Otherwise `save_message` runs
and then an unconditional `group_send` broadcasts the content with
`sender_email or 'Anonymous'`. -/
def receive (dir : List User) (store : List Message) (storeOk : Bool)
    (frame : Option Json) (now : Nat) : RecvOutcome :=
  match frame with
  | none => ⟨store, [], none⟩
  | some (.obj fields) =>
      match (jget fields "message").getD (.str "") with
      | .str raw =>
          let content := pyStrip raw
          let senderJson := (jget fields "sender_id").getD .null
          if content = "" then ⟨store, [], none⟩
          else
            match save_message dir store storeOk (jsonToPk senderJson) content now with
            | .error e => ⟨store, [], some e⟩
            | .ok r => ⟨r.store, r.events ++ [⟨content, pyOr r.senderEmail "Anonymous"⟩], none⟩
      | _ => ⟨store, [], some "AttributeError"⟩
  | some _ => ⟨store, [], some "AttributeError"⟩

/-- A member handle in the chat group: the consumer's `channel_name`,
an opaque comparison-only identifier. -/
abbrev Member := String

/-- Modelled from the spec: the Group Registry (§4.1). The group membership
operations `group_add` / `group_discard` live in the channels channel layer,
outside `src/`; per §4.1 `leave(roomId, member)` removes the member if
present and is a no-op otherwise (idempotent cleanup). -/
def leave (members : List Member) (m : Member) : List Member :=
  members.filter (fun x => x != m)

/-- Modelled from the spec: the Group Registry `join` (§4.1) — adds the
member to the room's set, no-op if already present. -/
def join (members : List Member) (m : Member) : List Member :=
  if m ∈ members then members else members ++ [m]

/-- `ChatConsumer.disconnect` (`consumers.py` lines 36-38): leave the chat
group, via the registry's `leave` (`group_discard`). -/
def disconnect (members : List Member) (channelName : Member) : List Member :=
  leave members channelName

/-- Modelled from the spec: the Broadcast Router dispatch loop (§4.2) lives
in the channels channel layer, outside `src/`. It fetches the member
snapshot and delivers the event to each member independently; a send failure
(`fails m = true`) is caught and treated as that member's disconnect
(Group Registry `leave`), and never aborts the remaining sends. Returns the
successful deliveries in order and the registry after cleanup. -/
def dispatchLoop : List Member → (Member → Bool) → BroadcastEvent →
    List Member → List (Member × BroadcastEvent) × List Member
  | [], _, _, reg => ([], reg)
  | m :: rest, fails, ev, reg =>
      if fails m then
        dispatchLoop rest fails ev (leave reg m)
      else
        let r := dispatchLoop rest fails ev reg
        ((m, ev) :: r.1, r.2)

/-- Modelled from the spec: `dispatch(roomId, event)` (§4.2) over the current
member snapshot of the room. -/
def dispatchGroup (members : List Member) (fails : Member → Bool)
    (ev : BroadcastEvent) : List (Member × BroadcastEvent) × List Member :=
  dispatchLoop members fails ev members

/-- `ChatPageView.get` (`views.py` lines 251-254): ordering relation of
`order_by('-timestamp')` — newest first. -/
def byRecency (a b : Message) : Prop := b.timestamp ≤ a.timestamp

instance : DecidableRel byRecency :=
  fun a b => inferInstanceAs (Decidable (b.timestamp ≤ a.timestamp))

instance : IsTotal Message byRecency :=
  ⟨fun a b => Nat.le_total b.timestamp a.timestamp⟩

instance : IsTrans Message byRecency :=
  ⟨fun _ _ _ h1 h2 => Nat.le_trans h2 h1⟩

/-- `ChatPageView.get` (`views.py` lines 251-254): the messages handed to the
template — `Message.objects.order_by('-timestamp')[:50]` then `reversed`. -/
def chat_page_messages (store : List Message) : List Message :=
  ((store.insertionSort byRecency).take 50).reverse


/-! ### Helper lemmas -/

theorem pyStrip_eq_empty (s : String) (h : ∀ c ∈ s.data, isPySpace c = true) :
    pyStrip s = "" := by
  unfold pyStrip
  rw [List.dropWhile_eq_nil_iff.mpr h]
  rfl

theorem getUserByPk_mem (dir : List User) (pk : Option Int) (u : User)
    (h : getUserByPk dir pk = some u) : u ∈ dir := by
  unfold getUserByPk at h
  cases pk with
  | none => cases h
  | some n => exact List.mem_of_find?_eq_some h

theorem save_message_sender_resolved (dir : List User) (store : List Message)
    (storeOk : Bool) (pk : Option Int) (content : String) (now : Nat)
    (r : SaveResult) (h : save_message dir store storeOk pk content now = .ok r) :
    ∀ msg ∈ r.store, msg ∈ store ∨ msg.sender ∈ dir := by
  intro msg hmsg
  unfold save_message at h
  cases hu : getUserByPk dir pk with
  | none =>
      rw [hu] at h
      cases h
      rcases hmsg with hmsg
      exact Or.inl hmsg
  | some u =>
      rw [hu] at h
      cases storeOk with
      | false => cases h
      | true =>
          cases h
          rcases List.mem_append.mp hmsg with h1 | h2
          · exact Or.inl h1
          · rcases List.mem_singleton.mp h2 with rfl
            exact Or.inr (getUserByPk_mem dir pk u hu)

/-! ### Fixtures for the concrete scenarios -/

/-- A registered user with primary key 1. -/
def user1 : User := ⟨1, "alice@example.com"⟩

/-- A well-formed frame from user 1: `{"message": "hello", "sender_id": 1}`. -/
def frameHello : Json := .obj [("message", .str "hello"), ("sender_id", .num 1)]

/-- A frame whose `sender_id` (42) matches no user:
`{"message": "hi", "sender_id": 42}`. -/
def frameHi42 : Json := .obj [("message", .str "hi"), ("sender_id", .num 42)]

/-! ### C1 -/

/-- C1: claimed — every successful client submit issues exactly one
BroadcastEvent, never two. The code violates this: with a resolvable sender
(user 1) and content "hello", the message is appended once, but two
BroadcastEvents carrying "hello" are issued — one by the `post_save` signal
fired inside `Message.objects.create`, one by the direct `group_send` in
`receive`. -/
theorem receive_broadcasts_twice :
    (receive [user1] [] true (some frameHello) 0).events =
      [⟨"hello", "alice@example.com"⟩, ⟨"hello", "alice@example.com"⟩] ∧
    (receive [user1] [] true (some frameHello) 0).store =
      [⟨user1, "hello", 0⟩] :=
  ⟨rfl, rfl⟩

/-! ### C2 -/

/-- C2 counterexample: claimed — a submit whose `sender_id` matches no user
still persists the message (with a null sender). In the code nothing is
persisted: with directory `[user1]` and `sender_id` 42 the store stays
empty, while the single broadcast does show "Anonymous". -/
theorem unknown_sender_counterexample :
    (receive [user1] [] true (some frameHi42) 0).store = [] ∧
    (receive [user1] [] true (some frameHi42) 0).events = [⟨"hi", "Anonymous"⟩] :=
  ⟨rfl, rfl⟩

/-- C2 (amended): when `sender_id` resolves to no existing user, the message
is NOT persisted (the `sender` foreign key is non-nullable and
`save_message` creates no row on `User.DoesNotExist`); the submission still
proceeds without error and issues one broadcast whose display name is
"Anonymous". -/
theorem unknown_sender_anonymous (dir : List User) (store : List Message)
    (storeOk : Bool) (fields : List (String × Json)) (raw : String) (sid : Json)
    (now : Nat)
    (hmsg : jget fields "message" = some (.str raw))
    (hsid : jget fields "sender_id" = some sid)
    (hcontent : pyStrip raw ≠ "")
    (hnouser : getUserByPk dir (jsonToPk sid) = none) :
    receive dir store storeOk (some (.obj fields)) now =
      ⟨store, [⟨pyStrip raw, "Anonymous"⟩], none⟩ := by
  unfold receive
  dsimp only
  rw [hmsg, hsid]
  simp only [Option.getD_some]
  rw [if_neg hcontent]
  unfold save_message
  rw [hnouser]
  simp [pyOr]

/-- C2 witness: the amended statement at the concrete scenario — directory
`[user1]`, frame `{"message": "hi", "sender_id": 42}`. -/
theorem unknown_sender_anonymous_witness :
    receive [user1] [] true (some frameHi42) 0 =
      ⟨[], [⟨"hi", "Anonymous"⟩], none⟩ :=
  unknown_sender_anonymous [user1] [] true
    [("message", .str "hi"), ("sender_id", .num 42)] "hi" (.num 42) 0
    rfl rfl (by decide) rfl

/-! ### C3 -/

/-- C3: claimed — every text frame that does not parse to a JSON object with
the required fields is silently discarded, with no error escaping the
receive handler. The code violates this: the frame "[]" is valid JSON but
not an object, so `data.get` raises `AttributeError`, which the
`except (json.JSONDecodeError, KeyError)` clause does not catch — the error
escapes the handler (the store and the event list stay untouched). -/
theorem nonobject_frame_raises :
    receive [user1] [] true (some (.arr [])) 0 =
      ⟨[], [], some "AttributeError"⟩ :=
  rfl

/-! ### C4 -/

/-- C4 counterexample: claimed — a failing store append aborts the
submission silently. In the code the database exception escapes: with a
resolvable sender and a failing store, `receive` issues no broadcast but
ends with an uncaught "DatabaseError" instead of returning silently. -/
theorem store_failure_counterexample :
    receive [user1] [] false (some frameHello) 0 =
      ⟨[], [], some "DatabaseError"⟩ :=
  rfl

/-- C4 (amended): when the store append fails for a message with a
resolvable sender, no BroadcastEvent is issued and nothing is persisted,
but the abort is not silent: only `User.DoesNotExist` is caught, so the
database exception propagates out of the receive handler. -/
theorem store_failure_no_broadcast (dir : List User) (store : List Message)
    (fields : List (String × Json)) (raw : String) (sid : Json) (u : User)
    (now : Nat)
    (hmsg : jget fields "message" = some (.str raw))
    (hsid : jget fields "sender_id" = some sid)
    (hcontent : pyStrip raw ≠ "")
    (huser : getUserByPk dir (jsonToPk sid) = some u) :
    receive dir store false (some (.obj fields)) now =
      ⟨store, [], some "DatabaseError"⟩ := by
  unfold receive
  dsimp only
  rw [hmsg, hsid]
  simp only [Option.getD_some]
  rw [if_neg hcontent]
  unfold save_message
  rw [huser]
  rfl

/-- C4 witness: the amended statement at the concrete scenario — user 1
submits "hello" while the store append fails. -/
theorem store_failure_no_broadcast_witness :
    receive [user1] [] false (some frameHello) 0 =
      ⟨[], [], some "DatabaseError"⟩ :=
  store_failure_no_broadcast [user1] []
    [("message", .str "hello"), ("sender_id", .num 1)] "hello" (.num 1) user1 0
    rfl rfl (by decide) rfl


/-! ### C5 -/

/-- C5: a frame whose content is empty or whitespace-only is dropped before
persistence and broadcast: `receive` strips the content, sees it empty, and
returns — the store is unchanged, no event is issued, no error escapes. -/
theorem whitespace_only_discarded (dir : List User) (store : List Message)
    (storeOk : Bool) (fields : List (String × Json)) (ws : String) (now : Nat)
    (hmsg : jget fields "message" = some (.str ws))
    (hws : ∀ c ∈ ws.data, isPySpace c = true) :
    receive dir store storeOk (some (.obj fields)) now = ⟨store, [], none⟩ := by
  unfold receive
  dsimp only
  rw [hmsg]
  simp only [Option.getD_some]
  rw [if_pos (pyStrip_eq_empty ws hws)]

/-- C5 witness: the whitespace-only frame `{"message": " \t ", "sender_id": 1}`
leaves the store untouched and broadcasts nothing. -/
theorem whitespace_only_discarded_witness :
    receive [user1] [] true
      (some (.obj [("message", .str " \t "), ("sender_id", .num 1)])) 0 =
      ⟨[], [], none⟩ :=
  whitespace_only_discarded [user1] [] true
    [("message", .str " \t "), ("sender_id", .num 1)] " \t " 0 rfl (by decide)

/-! ### Dispatch lemmas (Broadcast Router, modelled from spec §4.2) -/

theorem dispatchLoop_fst (fails : Member → Bool) (ev : BroadcastEvent) :
    ∀ (ms reg : List Member),
      (dispatchLoop ms fails ev reg).1 =
        (ms.filter (fun x => !fails x)).map (fun x => (x, ev)) := by
  intro ms
  induction ms with
  | nil => intro reg; rfl
  | cons m rest ih =>
      intro reg
      cases hf : fails m with
      | true => simp [dispatchLoop, hf, List.filter_cons, ih]
      | false => simp [dispatchLoop, hf, List.filter_cons, ih]

theorem mem_leave_of_mem (reg : List Member) (m x : Member)
    (h : x ∈ leave reg m) : x ∈ reg := by
  unfold leave at h
  exact (List.mem_filter.mp h).1

theorem not_mem_leave_self (reg : List Member) (m : Member) :
    m ∉ leave reg m := by
  unfold leave
  intro h
  have hb := (List.mem_filter.mp h).2
  simp at hb

theorem dispatchLoop_snd_not_mem (fails : Member → Bool) (ev : BroadcastEvent) :
    ∀ (ms reg : List Member) (m : Member), m ∉ reg →
      m ∉ (dispatchLoop ms fails ev reg).2 := by
  intro ms
  induction ms with
  | nil => intro reg m hm; exact hm
  | cons x rest ih =>
      intro reg m hm
      cases hf : fails x with
      | true =>
          simp only [dispatchLoop, hf, if_pos]
          exact ih (leave reg x) m (fun hc => hm (mem_leave_of_mem reg x m hc))
      | false =>
          simp only [dispatchLoop, hf]
          exact ih reg m hm

theorem dispatchLoop_snd_fails_not_mem (fails : Member → Bool)
    (ev : BroadcastEvent) :
    ∀ (ms reg : List Member) (m : Member), m ∈ ms → fails m = true →
      m ∉ (dispatchLoop ms fails ev reg).2 := by
  intro ms
  induction ms with
  | nil => intro reg m hm; cases hm
  | cons x rest ih =>
      intro reg m hm hf
      rcases List.mem_cons.mp hm with rfl | hrest
      · simp only [dispatchLoop, hf]
        exact dispatchLoop_snd_not_mem fails ev rest (leave reg m) m
          (not_mem_leave_self reg m)
      · cases hx : fails x with
        | true =>
            simp only [dispatchLoop, hx]
            exact ih (leave reg x) m hrest hf
        | false =>
            simp only [dispatchLoop, hx]
            exact ih reg m hrest hf

/-! ### C6 -/

/-- C6: a `Message` created directly in the store (the `post_save` receiver
fires with `created = true`) issues exactly one BroadcastEvent, carrying the
message's content, and dispatching it reaches every member currently in the
room; a save of an existing message (`created = false`) issues none. -/
theorem external_create_single_broadcast (m : Message) (members : List Member) :
    broadcast_message true m = [⟨m.content, m.sender.email⟩] ∧
    broadcast_message false m = [] ∧
    (∀ mem ∈ members,
      (mem, (⟨m.content, m.sender.email⟩ : BroadcastEvent)) ∈
        (dispatchGroup members (fun _ => false) ⟨m.content, m.sender.email⟩).1) := by
  refine ⟨rfl, rfl, ?_⟩
  intro mem hmem
  unfold dispatchGroup
  rw [dispatchLoop_fst]
  simp only [Bool.not_false, List.filter_true, List.mem_map]
  exact ⟨mem, hmem, rfl⟩

/-- C6 witness: with members `["chan1", "chan2"]` and the externally created
message `⟨user1, "ping", 5⟩`, member "chan1" receives the single event. -/
theorem external_create_single_broadcast_witness :
    broadcast_message true ⟨user1, "ping", 5⟩ =
      [⟨"ping", "alice@example.com"⟩] ∧
    broadcast_message false ⟨user1, "ping", 5⟩ = [] ∧
    (("chan1" : Member), (⟨"ping", "alice@example.com"⟩ : BroadcastEvent)) ∈
      (dispatchGroup ["chan1", "chan2"] (fun _ => false)
        ⟨"ping", "alice@example.com"⟩).1 :=
  ⟨(external_create_single_broadcast ⟨user1, "ping", 5⟩ ["chan1", "chan2"]).1,
   (external_create_single_broadcast ⟨user1, "ping", 5⟩ ["chan1", "chan2"]).2.1,
   (external_create_single_broadcast ⟨user1, "ping", 5⟩ ["chan1", "chan2"]).2.2
     "chan1" (by decide)⟩

/-! ### C7 -/

/-- C7: `leave` (the registry removal `disconnect` delegates to) is
idempotent: a second `disconnect` for the same member changes nothing, and
`disconnect` for a member not in the room is a no-op, never an error. -/
theorem disconnect_idempotent (ms : List Member) (c : Member) :
    disconnect (disconnect ms c) c = disconnect ms c ∧
    (c ∉ ms → disconnect ms c = ms) := by
  constructor
  · simp [disconnect, leave, List.filter_filter]
  · intro h
    simp only [disconnect, leave]
    apply List.filter_eq_self.mpr
    intro a ha
    have hne : a ≠ c := fun e => h (e ▸ ha)
    simpa using hne

/-- C7 witness: double disconnect of "chan2", and disconnect of the absent
member "chan2" from `["chan1"]`, at concrete values. -/
theorem disconnect_idempotent_witness :
    disconnect (disconnect ["chan1"] "chan2") "chan2" =
      disconnect ["chan1"] "chan2" ∧
    ("chan2" : Member) ∉ (["chan1"] : List Member) ∧
    disconnect ["chan1"] "chan2" = ["chan1"] :=
  ⟨(disconnect_idempotent ["chan1"] "chan2").1, by decide,
   (disconnect_idempotent ["chan1"] "chan2").2 (by decide)⟩

/-! ### C8 -/

/-- C8: dispatching an event to the room's member snapshot delivers the very
same event to exactly the members whose send does not fail — the delivery
list is the non-failing members in order, each paired with the event, so one
member's failure never aborts the others — and a failing member is treated
as disconnected: it is no longer in the registry after the dispatch. -/
theorem dispatch_isolates_failures (members : List Member)
    (fails : Member → Bool) (ev : BroadcastEvent) :
    (dispatchGroup members fails ev).1 =
      (members.filter (fun x => !fails x)).map (fun x => (x, ev)) ∧
    (∀ m ∈ members, fails m = true → m ∉ (dispatchGroup members fails ev).2) := by
  constructor
  · exact dispatchLoop_fst fails ev members members
  · intro m hm hf
    exact dispatchLoop_snd_fails_not_mem fails ev members members m hm hf

/-- C8 witness: room `["chan1", "chan2", "chan3"]` where delivery to "chan2"
fails — "chan1" and "chan3" still receive the event and "chan2" is removed
from the registry. -/
theorem dispatch_isolates_failures_witness :
    (dispatchGroup ["chan1", "chan2", "chan3"] (fun x => x == "chan2")
        (⟨"hi", "alice@example.com"⟩ : BroadcastEvent)).1 =
      [("chan1", ⟨"hi", "alice@example.com"⟩),
       ("chan3", ⟨"hi", "alice@example.com"⟩)] ∧
    ("chan2" : Member) ∉
      (dispatchGroup ["chan1", "chan2", "chan3"] (fun x => x == "chan2")
        (⟨"hi", "alice@example.com"⟩ : BroadcastEvent)).2 := by
  refine ⟨?_, ?_⟩
  · rw [(dispatch_isolates_failures ["chan1", "chan2", "chan3"]
      (fun x => x == "chan2") ⟨"hi", "alice@example.com"⟩).1]
    decide
  · exact (dispatch_isolates_failures ["chan1", "chan2", "chan3"]
      (fun x => x == "chan2") ⟨"hi", "alice@example.com"⟩).2 "chan2"
      (by decide) rfl


/-! ### C9 -/

/-- C9: the initial page-load read path returns at most 50 messages, in
oldest-first order, drawn from the store, and they are the most recent ones:
any stored message left out of the page is no newer than any message on it. -/
theorem chat_page_most_recent_50 (store : List Message) :
    (chat_page_messages store).length ≤ 50 ∧
    (chat_page_messages store).Sorted (fun a b => a.timestamp ≤ b.timestamp) ∧
    (∀ m ∈ chat_page_messages store, m ∈ store) ∧
    (∀ y ∈ store, y ∉ chat_page_messages store →
      ∀ x ∈ chat_page_messages store, y.timestamp ≤ x.timestamp) := by
  have hs : List.Sorted byRecency (store.insertionSort byRecency) :=
    List.sorted_insertionSort byRecency store
  refine ⟨?_, ?_, ?_, ?_⟩
  · rw [chat_page_messages, List.length_reverse, List.length_take]
    exact min_le_left 50 _
  · rw [chat_page_messages]
    apply List.pairwise_reverse.mpr
    exact hs.sublist (List.take_sublist 50 _)
  · intro m hm
    rw [chat_page_messages, List.mem_reverse] at hm
    exact (List.perm_insertionSort byRecency store).subset
      (List.mem_of_mem_take hm)
  · intro y hy hynot x hx
    rw [chat_page_messages, List.mem_reverse] at hx hynot
    have hy2 : y ∈ store.insertionSort byRecency :=
      (List.perm_insertionSort byRecency store).symm.subset hy
    have hsplit : (store.insertionSort byRecency).take 50 ++
        (store.insertionSort byRecency).drop 50 = store.insertionSort byRecency :=
      List.take_append_drop 50 _
    have hs2 : List.Pairwise byRecency
        ((store.insertionSort byRecency).take 50 ++
          (store.insertionSort byRecency).drop 50) := by
      rw [hsplit]; exact hs
    rw [← hsplit] at hy2
    rcases List.mem_append.mp hy2 with h1 | h2
    · exact absurd h1 hynot
    · exact (List.pairwise_append.mp hs2).2.2 x hx y h2

/-- The user owning the page-load witness messages. -/
def pageUser : User := ⟨7, "page@example.com"⟩

/-- The single old message of the page-load witness store. -/
def oldMsg : Message := ⟨pageUser, "old", 0⟩

/-- The newer message filling the page-load witness store. -/
def newMsg : Message := ⟨pageUser, "new", 1⟩

/-- A store of 51 messages: one old message and 50 newer ones. -/
def bigStore : List Message := oldMsg :: List.replicate 50 newMsg

/-- C9 witness: on a store of 51 messages the page keeps at most 50, the old
message is the one left out, and it is no newer than the page's messages. -/
theorem chat_page_most_recent_50_witness :
    (chat_page_messages bigStore).length ≤ 50 ∧
    oldMsg ∈ bigStore ∧
    oldMsg ∉ chat_page_messages bigStore ∧
    newMsg ∈ chat_page_messages bigStore ∧
    oldMsg.timestamp ≤ newMsg.timestamp :=
  ⟨(chat_page_most_recent_50 bigStore).1, by decide, by decide, by decide,
   (chat_page_most_recent_50 bigStore).2.2.2 oldMsg (by decide) (by decide)
     newMsg (by decide)⟩

/-! ### C10 -/

/-- C10: every message the submit path leaves in the store either was
already there or has its sender — a non-nullable `User`, by the type of
`Message.sender` — present in the user directory: `save_message` only
creates a row after the sender lookup succeeds, so a persisted message with
an unresolved sender is impossible through `receive`. -/
theorem persisted_sender_resolved (dir : List User) (store : List Message)
    (storeOk : Bool) (frame : Option Json) (now : Nat) :
    ∀ msg ∈ (receive dir store storeOk frame now).store,
      msg ∈ store ∨ msg.sender ∈ dir := by
  intro msg hmsg
  cases frame with
  | none => exact Or.inl hmsg
  | some j =>
      cases j with
      | null => exact Or.inl hmsg
      | bool b => exact Or.inl hmsg
      | num n => exact Or.inl hmsg
      | str s => exact Or.inl hmsg
      | arr elems => exact Or.inl hmsg
      | obj fields =>
          unfold receive at hmsg
          dsimp only at hmsg
          cases hv : (jget fields "message").getD (.str "") with
          | str raw =>
              rw [hv] at hmsg
              dsimp only at hmsg
              by_cases hc : pyStrip raw = ""
              · rw [if_pos hc] at hmsg
                exact Or.inl hmsg
              · rw [if_neg hc] at hmsg
                cases hsv : save_message dir store storeOk
                    (jsonToPk ((jget fields "sender_id").getD .null))
                    (pyStrip raw) now with
                | error e => rw [hsv] at hmsg; exact Or.inl hmsg
                | ok r =>
                    rw [hsv] at hmsg
                    exact save_message_sender_resolved dir store storeOk
                      (jsonToPk ((jget fields "sender_id").getD .null))
                      (pyStrip raw) now r hsv msg hmsg
          | null => rw [hv] at hmsg; exact Or.inl hmsg
          | bool b => rw [hv] at hmsg; exact Or.inl hmsg
          | num n => rw [hv] at hmsg; exact Or.inl hmsg
          | arr elems => rw [hv] at hmsg; exact Or.inl hmsg
          | obj flds => rw [hv] at hmsg; exact Or.inl hmsg

/-- C10 witness: the message persisted by the successful submit of "hello"
from user 1 has its sender in the directory. -/
theorem persisted_sender_resolved_witness :
    (⟨user1, "hello", 0⟩ : Message) ∈
      (receive [user1] [] true (some frameHello) 0).store ∧
    ((⟨user1, "hello", 0⟩ : Message) ∈ ([] : List Message) ∨
      (⟨user1, "hello", 0⟩ : Message).sender ∈ [user1]) :=
  ⟨by decide,
   persisted_sender_resolved [user1] [] true (some frameHello) 0
     ⟨user1, "hello", 0⟩ (by decide)⟩

end Chat
